import Mathlib

/-!
Verification development for the goonedin job-monitor backend
(`backend/app`): the polling-dedup-alert pipeline in `main.py`, the
dedup cache helpers, the scraper result contract, and the WebSocket
broadcast managers.  Each definition is a shallow embedding of the
corresponding Python function; theorems at the end of the file settle
the specification claims against these definitions.

Conventions of the embedding:
* wall-clock instants are `Int` seconds since the epoch (Python
  `datetime` values produced by `utcnow()` / `now(timezone.utc)` are
  UTC wall clocks, so one integer axis is faithful);
* a Python `datetime` value is a `PyDatetime`: its UTC epoch second
  plus whether it carries a `tzinfo` (naive values in this code base
  are produced by `datetime.utcnow`, i.e. UTC wall clock);
* fallible backend calls are `Except` values; a raised exception is
  `.error`;
* Redis is a `CacheState`: an association list from key to stored
  snapshot and absolute expiry instant (`none` = no TTL, as written by
  `redis.set`); expiry is judged against the explicit current time.
-/

namespace Goonedin

/-- Does `needle` occur as a contiguous run starting at some position of
the second list? -/
def subAt (needle : List Char) : List Char → Bool
  | [] => needle.isEmpty
  | c :: rest => needle.isPrefixOf (c :: rest) || subAt needle rest

/-- Python substring test `needle in hay` (`str.__contains__`). -/
def strContains (hay needle : String) : Bool :=
  subAt needle.toList hay.toList

/-- Python `str.lower` (the keyword lists and fields involved are
ASCII, where `Char.toLower` agrees with Python). -/
def pyLower (s : String) : String :=
  ⟨s.toList.map Char.toLower⟩

/-- Embedding of a Python `datetime`: UTC epoch second plus whether the
value is timezone-aware (`tzinfo is not None`). -/
structure PyDatetime where
  epochSec : Int
  tzAware : Bool
deriving DecidableEq, Repr

/-- Embeds `main.JOB_RECENCY_MINUTES = 600`. -/
def JOB_RECENCY_MINUTES : Int := 600

/-- Embeds `main.SEEN_JOB_TTL_SECONDS = 60 * 60 * 2`. -/
def SEEN_JOB_TTL_SECONDS : Int := 60 * 60 * 2

/-- Embeds `main.FIDELITY_TTL_SECONDS = 24 * 60 * 60`. -/
def FIDELITY_TTL_SECONDS : Int := 24 * 60 * 60

/-- Embeds `main.is_recent`: true when the job was posted within
`JOB_RECENCY_MINUTES` of `now`; a timezone-naive timestamp is
reinterpreted as UTC via `replace(tzinfo=timezone.utc)`; `None` is
rejected. -/
def is_recent (nowSec : Int) (posted_at : Option PyDatetime) : Bool :=
  match posted_at with
  | none => false
  | some d =>
      let d2 := if d.tzAware then d else { d with tzAware := true }
      decide (nowSec - d2.epochSec ≤ JOB_RECENCY_MINUTES * 60)

/-- Embeds `models.job.JobBase`/`JobCreate` fields used by the pipeline. -/
structure JobPosting where
  title : String
  company : String
  location : String
  url : String
  source : String
  externalId : String
  postedAt : Option PyDatetime
  salary : Option String := none
  workModel : Option String := none
deriving DecidableEq, Repr

/-- Embeds `JobBase.posted_at`'s declared default,
`Field(default_factory=datetime.utcnow)`: a posting constructed without
an explicit `posted_at` gets the (timezone-naive) construction instant,
never `None`. -/
def jobBaseDefaultPostedAt (constructionNow : Int) : Option PyDatetime :=
  some { epochSec := constructionNow, tzAware := false }

/-- Embeds `main.matches_target_keywords`: the lowercased title must contain
some lowercased target keyword as a substring. -/
def matchesTargetKeywords (target_keywords : List String) (title : String) : Bool :=
  target_keywords.any (fun kw => strContains (pyLower title) (pyLower kw))

/-- Title-exclusion test shared verbatim by `scraper_linkedin` (line
128) and `scraper_fidelity` (line 125):
`any(kw in title.lower() for kw in title_filter_keywords)`.
Note the keyword is NOT lowercased; only the title is. -/
def titleFilterHit (title_filter_keywords : List String) (title : String) : Bool :=
  title_filter_keywords.any (fun kw => strContains (pyLower title) kw)

/-- Blocked-company test of `scraper_linkedin` (line 137):
`any(blocked.lower() in company.lower() for blocked in ...)`. -/
def blockedCompanyHit (blocked_companies : List String) (company : String) : Bool :=
  blocked_companies.any (fun b => strContains (pyLower company) (pyLower b))

/-- Embeds `redis_config.DEFAULT_TARGET_LOCATIONS`. -/
def DEFAULT_TARGET_LOCATIONS : List String := ["United States"]

/-- Embeds `redis_config.DEFAULT_TITLE_FILTER_KEYWORDS`. -/
def DEFAULT_TITLE_FILTER_KEYWORDS : List String :=
  ["senior", "principal", "manager", "staff", "sr.", "lead", "director",
   "nurse", "therapist", "Veterinarian"]

/-- Embeds `redis_config.DEFAULT_BLOCKED_COMPANIES`. -/
def DEFAULT_BLOCKED_COMPANIES : List String :=
  ["Infosys", "Wipro", "TCS", "Wiraa", "BeaconFire Inc.", "FetchJobs.co",
   "Cognizant", "HCL", "Tech Mahindra", "LTI", "Mphasis", "Capgemini",
   "Accenture", "DXC Technology", "NTT Data", "Mindtree", "Virtusa",
   "Hexaware Technologies", "Zensurance", "Bespoke Technologies, Inc.",
   "Trinity Technology Solutions LLC", "The Swift Group, LLC",
   "Nesco Resource", "Egotechworld", "Jobs via Dice", "Lensa",
   "Best Job Tool", "Robert Half", "Hirenza", "UHS Physician Careers",
   "Tekskills Inc.", "Randstad Digital Americas", "CEO Foundry LLC",
   "TRANSREACH TALENT LLC",
   "Underdog.io -Apply to top tech jobs in 60 seconds. A place where companies apply to you",
   "TalentAlly", "WayUp", "RemoteHunter"]

/-! ### Dedup cache (Redis embedding) -/

/-- A stored dedup record: the serialized job snapshot plus the absolute
expiry instant (`none` when written by `redis.set`, i.e. no TTL). -/
structure CacheEntry where
  snap : JobPosting
  expiry : Option Int
deriving DecidableEq, Repr

/-- The Redis keyspace visible to the pipeline. -/
structure CacheState where
  entries : List (String × CacheEntry)
deriving DecidableEq, Repr

def cacheLookup (c : CacheState) (k : String) : Option CacheEntry :=
  match c.entries.find? (fun p => p.1 == k) with
  | some p => some p.2
  | none => none

/-- Whether key `k` is live at instant `t` (present and not expired). -/
def cacheHas (c : CacheState) (t : Int) (k : String) : Bool :=
  match cacheLookup c k with
  | none => false
  | some e =>
      match e.expiry with
      | none => true
      | some exp => decide (t < exp)

/-- Overwrite-or-insert, as Redis `SETEX`/`SET` do. -/
def cacheSet (c : CacheState) (k : String) (e : CacheEntry) : CacheState :=
  ⟨(k, e) :: c.entries.filter (fun p => p.1 ≠ k)⟩

/-- The `redis_client.exists(job_key)` call: when the backend is
unreachable the call raises (`.error`), otherwise it returns the number
of existing keys (0 or 1 here). -/
def existsCall (reachable : Bool) (c : CacheState) (t : Int) : String → Except Unit Nat :=
  fun k => if reachable then .ok (if cacheHas c t k then 1 else 0) else .error ()

/-- Embeds `main.is_already_seen`, generic in the backend call: `bool(await
redis_client.exists(job_key))` inside `try`, returning `False` on any
exception. -/
def isAlreadySeenGen (ex : String → Except Unit Nat) (job_key : String) : Bool :=
  match ex job_key with
  | .ok n => n != 0
  | .error _ => false

/-- Embeds `main.is_already_seen` against the cache model. -/
def is_already_seen (reachable : Bool) (c : CacheState) (t : Int) (job_key : String) : Bool :=
  isAlreadySeenGen (existsCall reachable c t) job_key

/-- Embeds `main.mark_as_seen`: `SETEX job_key ttl (json.dumps(job_data))`;
a write failure (`writeOk = false`) is caught and logged, leaving the
cache unchanged. -/
def mark_as_seen (writeOk : Bool) (c : CacheState) (t : Int) (job_key : String)
    (job_data : JobPosting) (ttl_seconds : Int) : CacheState :=
  if writeOk then cacheSet c job_key ⟨job_data, some (t + ttl_seconds)⟩ else c

/-- Embeds `main.mark_as_seen_permanent`: `SET` with no TTL. -/
def mark_as_seen_permanent (writeOk : Bool) (c : CacheState) (job_key : String)
    (job_data : JobPosting) : CacheState :=
  if writeOk then cacheSet c job_key ⟨job_data, none⟩ else c

/-- The dedup key `f"seen_job:{job.source}:{job.external_id}"`. -/
def jobKey (j : JobPosting) : String :=
  "seen_job:" ++ j.source ++ ":" ++ j.externalId

/-! ### Scraper result contract and the scheduler loop (`main.run_scraper_loop`) -/

/-- The dict each scraper returns.  `recentJobs = none` models a result
dict with no `"recent_jobs"` key (LinkedIn, Jobright recommend);
`some l` models a dict carrying that key with list `l`. -/
structure FetchResult where
  jobs : List JobPosting
  recentJobs : Option (List JobPosting)
  retries : Nat
  failed : Bool
deriving DecidableEq, Repr

/-- Observable side effects of one posting's alert path, in issue
order: the Redis write (`mark_as_seen` / `mark_as_seen_permanent`,
carrying the snapshot and its TTL class, `none` = permanent), the
WebSocket `manager.broadcast` of the `NEW_JOB` envelope, and the
Telegram dispatch. -/
inductive Ev where
  | cacheWrite (j : JobPosting) (ttl : Option Int)
  | wsBroadcast (j : JobPosting)
  | telegram (j : JobPosting)
deriving DecidableEq, Repr

/-- The posting an event is about. -/
def Ev.job : Ev → JobPosting
  | .cacheWrite j _ => j
  | .wsBroadcast j => j
  | .telegram j => j

/-- State threaded through one cycle's processing loops. -/
structure LoopState where
  cache : CacheState
  newFinds : Nat
  trace : List Ev
deriving DecidableEq, Repr

def initState (c : CacheState) : LoopState :=
  { cache := c, newFinds := 0, trace := [] }

/-- Number of alert fan-outs (Telegram dispatches) for dedup key `k`
in a trace. -/
def fanoutCount (tr : List Ev) (k : String) : Nat :=
  (tr.filter (fun e => match e with
    | .telegram j => jobKey j == k
    | _ => false)).length

/-- The shared tail of all five per-pool loops in
`run_scraper_loop` (e.g. lines 211-230): dedup check, then on a miss
the Redis write (`ttl = none` selects `mark_as_seen_permanent`, used by
the MathWorks pool), `new_finds += 1`, WebSocket broadcast, Telegram
alert.  `readOk`/`writeOk` say whether the Redis read/write backend
call succeeds or raises. -/
def alertJob (now : Int) (readOk writeOk : Bool) (ttl : Option Int)
    (st : LoopState) (j : JobPosting) : LoopState :=
  let k := jobKey j
  if is_already_seen readOk st.cache now k then st
  else
    let cache2 := match ttl with
      | some s => mark_as_seen writeOk st.cache now k j s
      | none => mark_as_seen_permanent writeOk st.cache k j
    let writeEv := if writeOk then [Ev.cacheWrite j ttl] else []
    { cache := cache2
      newFinds := st.newFinds + 1
      trace := st.trace ++ writeEv ++ [Ev.wsBroadcast j, Ev.telegram j] }

/-- The general-pool loop body (`run_scraper_loop` lines 200-230):
postings whose `source` is the string `"Jobright"` skip the recency and
target-keyword filters; all others must pass both; then the shared
dedup/alert tail runs with the standard TTL class. -/
def processGeneral (target_keywords : List String) (now : Int) (readOk writeOk : Bool)
    (st : LoopState) (j : JobPosting) : LoopState :=
  if j.source == "Jobright" then
    alertJob now readOk writeOk (some SEEN_JOB_TTL_SECONDS) st j
  else if !(is_recent now j.postedAt) then st
  else if !(matchesTargetKeywords target_keywords j.title) then st
  else alertJob now readOk writeOk (some SEEN_JOB_TTL_SECONDS) st j

/-- The per-source pools built by `run_scraper_loop` lines 169-189. -/
structure Pools where
  allJobs : List JobPosting
  ms : List JobPosting
  fid : List JobPosting
  ss : List JobPosting
  mw : List JobPosting
deriving DecidableEq, Repr

def emptyPools : Pools := ⟨[], [], [], [], []⟩

/-- Routing of one `FetchResult` (`run_scraper_loop` lines 174-189):
when the dict has a non-empty `recent_jobs` list, dispatch on the FIRST
posting's `source` string; otherwise (or for an unrecognized source)
extend the general pool with the `jobs` list. -/
def routeOne (p : Pools) (r : FetchResult) : Pools :=
  match r.recentJobs with
  | some (first :: rest) =>
      let rj := first :: rest
      if first.source == "JobrightMiniSites" then { p with ms := p.ms ++ rj }
      else if first.source == "Fidelity" then { p with fid := p.fid ++ rj }
      else if first.source == "StateStreet" then { p with ss := p.ss ++ rj }
      else if first.source == "MathWorks" then { p with mw := p.mw ++ rj }
      else { p with allJobs := p.allJobs ++ r.jobs }
  | _ => { p with allJobs := p.allJobs ++ r.jobs }

/-- One cycle's post-gather processing (`run_scraper_loop` lines
169-310): route every result into pools, then run the five loops in
order — general pool (full filters, 2h TTL), mini-sites (2h TTL),
Fidelity (24h TTL), State Street (2h TTL), MathWorks (permanent). -/
def runCycle (target_keywords : List String) (now : Int) (readOk writeOk : Bool)
    (results : List FetchResult) (st0 : LoopState) : LoopState :=
  let p := results.foldl routeOne emptyPools
  let st1 := p.allJobs.foldl (processGeneral target_keywords now readOk writeOk) st0
  let st2 := p.ms.foldl (alertJob now readOk writeOk (some SEEN_JOB_TTL_SECONDS)) st1
  let st3 := p.fid.foldl (alertJob now readOk writeOk (some FIDELITY_TTL_SECONDS)) st2
  let st4 := p.ss.foldl (alertJob now readOk writeOk (some SEEN_JOB_TTL_SECONDS)) st3
  p.mw.foldl (alertJob now readOk writeOk none) st4

/-! ### Cycle statistics (`run_scraper_loop` lines 162-167) -/

structure CycleStats where
  totalCalls : Nat
  passed : Nat
  failedCalls : Nat
  retried : Nat
  retriedAndPassed : Nat
  successRate : ℚ
deriving DecidableEq, Repr

/-- Embeds `total_calls = len(results)`, `failed = sum(1 for r if r["failed"])`,
`passed = total_calls - failed`, `retried`, `retried_and_passed`,
`success_rate = (passed / total_calls * 100) if total_calls else 0`. -/
def cycleStats (results : List FetchResult) : CycleStats :=
  let total := results.length
  let failedCt := results.countP (fun r => r.failed)
  let passedCt := total - failedCt
  { totalCalls := total
    passed := passedCt
    failedCalls := failedCt
    retried := results.countP (fun r => r.retries > 0)
    retriedAndPassed := results.countP (fun r => r.retries > 0 && !r.failed)
    successRate := if total = 0 then 0 else (passedCt : ℚ) / (total : ℚ) * 100 }

/-! ### Fidelity scraper (`services/scraper_fidelity.py`) -/

/-- One entry of the Workday `jobPostings` JSON array, with the fields
the parse loop reads (`""` models a missing/falsy string field). -/
structure FidelityRaw where
  title : String
  postedOn : String
  externalPath : String
  bulletFields : List String
  locationsText : String
deriving DecidableEq, Repr

def FIDELITY_BASE_URL : String :=
  "https://wd1.myworkdaysite.com/en-US/recruiting/fmr/FidelityCareers"

/-- Embeds `scraper_fidelity.is_posted_today`. -/
def is_posted_today (posted_on : String) : Bool :=
  if posted_on = "" then false else (pyLower posted_on) == "posted today"

/-- The per-posting body of `fetch_fidelity_jobs`'s parse loop (lines
116-160): skip when the title is missing, when a title-filter keyword
occurs in the lowercased title, when not posted today, when the
external path is missing, or when a blocked company (lowercased)
occurs in `"fidelity investments"`; otherwise build the `JobCreate`
that is appended to both `parsed_jobs` and `recent_jobs`. -/
def fidelityParseOne (title_filter_keywords blocked_companies : List String)
    (now : Int) (raw : FidelityRaw) : Option JobPosting :=
  if raw.title = "" then none
  else if titleFilterHit title_filter_keywords raw.title then none
  else if !(is_posted_today raw.postedOn) then none
  else if raw.externalPath = "" then none
  else if blocked_companies.any
      (fun b => strContains "fidelity investments" (pyLower b)) then none
  else some
    { title := raw.title
      company := "Fidelity Investments"
      location := raw.locationsText
      url := FIDELITY_BASE_URL ++ raw.externalPath
      source := "Fidelity"
      externalId := (match raw.bulletFields with
        | b :: _ => b
        | [] => raw.externalPath)
      postedAt := some ⟨now, true⟩ }

/-- A successful `fetch_fidelity_jobs` return value: the parsed jobs go
to both the `jobs` and the `recent_jobs` keys. -/
def fidelityFetchResult (title_filter_keywords blocked_companies : List String)
    (now : Int) (raws : List FidelityRaw) : FetchResult :=
  let parsed := raws.filterMap (fidelityParseOne title_filter_keywords blocked_companies now)
  { jobs := parsed, recentJobs := some parsed, retries := 0, failed := false }

/-! ### LinkedIn scraper card filter (`services/scraper_linkedin.py` lines 121-176) -/

/-- The fields extracted from one `<li>` job card (`""` models a
missing/falsy extraction). -/
structure LinkedInCard where
  title : String
  company : String
  location : String
  url : String
  externalId : String
  postedAt : Option PyDatetime
deriving DecidableEq, Repr

/-- The per-card body of `fetch_linkedin_jobs`'s parse loop,
parameterized by the title-filter and blocked-company keyword lists it
consults: skip empty titles, titles hit by a filter keyword (keyword
NOT lowercased, title lowercased), blocked companies (both sides
lowercased), missing URLs and missing ids. -/
def linkedinParseOne (title_filter_keywords blocked_companies : List String)
    (card : LinkedInCard) : Option JobPosting :=
  if card.title = "" then none
  else if titleFilterHit title_filter_keywords card.title then none
  else if blockedCompanyHit blocked_companies card.company then none
  else if card.url = "" then none
  else if card.externalId = "" then none
  else some
    { title := card.title
      company := card.company
      location := card.location
      url := card.url
      source := "LinkedIn"
      externalId := card.externalId
      postedAt := card.postedAt }

/-! ### WebSocket broadcast managers (`api/websocket.py`) -/

/-- A live WebSocket connection: its identity and whether `send_json`
to it succeeds. -/
structure Conn where
  id : Nat
  ok : Bool
deriving DecidableEq, Repr

/-- Embeds `ConnectionManager.disconnect` / `LogConnectionManager.disconnect`:
remove the connection if it is in the live list (first occurrence, as
`list.remove`). -/
def disconnect (conns : List Conn) (c : Conn) : List Conn :=
  if conns.contains c then conns.erase c else conns

/-- CPython `for connection in self.active_connections` iterates by
index over the list object itself, so `ConnectionManager.broadcast`'s
in-loop `self.disconnect(connection)` shifts later elements one slot
left under the iterator.  `fuel` only bounds the iteration count: the
index grows by one per step and the list never grows, so
`conns.length + 1` steps always reach the exit. -/
def broadcastLoop : Nat → List Conn → Nat → List Conn → List Conn × List Conn
  | 0, conns, _, delivered => (delivered, conns)
  | fuel + 1, conns, i, delivered =>
      if h : i < conns.length then
        let c := conns.get ⟨i, h⟩
        if c.ok then broadcastLoop fuel conns (i + 1) (delivered ++ [c])
        else broadcastLoop fuel (disconnect conns c) (i + 1) delivered
      else (delivered, conns)

/-- Embeds `ConnectionManager.broadcast` (websocket.py lines 64-74): returns
(connections the event was delivered to, final live list). -/
def connectionManagerBroadcast (conns : List Conn) : List Conn × List Conn :=
  broadcastLoop (conns.length + 1) conns 0 []

/-- The first loop of `LogConnectionManager.broadcast` (lines 31-38):
send to every connection of the unmodified list, collecting
(deliveries, failures) in order. -/
def logBroadcastScan : List Conn → List Conn × List Conn
  | [] => ([], [])
  | c :: rest =>
      let (d, f) := logBroadcastScan rest
      if c.ok then (c :: d, f) else (d, c :: f)

/-- Embeds `LogConnectionManager.broadcast` (lines 31-40): deliver over the
unmodified list, then disconnect the collected failures. -/
def logManagerBroadcast (conns : List Conn) : List Conn × List Conn :=
  let (d, f) := logBroadcastScan conns
  (d, f.foldl disconnect conns)

/-! ### Python call binding (the scheduler's adapter invocations)

`run_scraper_loop` lines 150-160 invoke every scraper with
`redis_client` as first positional argument.  Whether such a call even
reaches the adapter body is decided by Python's argument-binding step,
embedded here for functions whose parameters are all
positional-or-keyword. -/

/-- An argument value as far as binding is concerned. -/
inductive PyVal where
  | redisClient
  | str (s : String)
deriving DecidableEq, Repr

/-- A Python signature: parameter names in order, and how many trailing
parameters carry defaults. -/
structure PySig where
  params : List String
  defaults : Nat
deriving DecidableEq, Repr

inductive CallOutcome where
  | bound (args : List (String × PyVal))
  | typeErr (msg : String)
deriving DecidableEq, Repr

/-- CPython argument binding for a call
`f(*posArgs, **kwArgs)`: too many positional arguments, a keyword
duplicating a positionally-bound parameter, an unexpected keyword, or
a missing required parameter each raise `TypeError` before the body
runs. -/
def bindCall (sig : PySig) (posArgs : List PyVal) (kwArgs : List (String × PyVal)) :
    CallOutcome :=
  if posArgs.length > sig.params.length then
    .typeErr "too many positional arguments"
  else
    let posBound := sig.params.take posArgs.length
    if kwArgs.any (fun p => posBound.contains p.1) then
      .typeErr "got multiple values for argument"
    else if kwArgs.any (fun p => !(sig.params.contains p.1)) then
      .typeErr "unexpected keyword argument"
    else
      let boundNames := posBound ++ kwArgs.map (fun p => p.1)
      let required := sig.params.take (sig.params.length - sig.defaults)
      if required.any (fun n => !(boundNames.contains n)) then
        .typeErr "missing required argument"
      else .bound (posBound.zip posArgs ++ kwArgs)

/-- Embeds `fetch_linkedin_jobs(keywords=None, location=None)`. -/
def linkedinSig : PySig := ⟨["keywords", "location"], 2⟩

/-- Embeds `fetch_jobright_minisites_jobs()`. -/
def minisitesSig : PySig := ⟨[], 0⟩

/-- Embeds `fetch_mathworks_jobs()`. -/
def mathworksSig : PySig := ⟨[], 0⟩

/-- Embeds `fetch_fidelity_jobs(redis_client)`. -/
def fidelitySig : PySig := ⟨["redis_client"], 0⟩

/-! ### Spec-side comparison definitions

The next two definitions follow the specification's words, not the
source, and exist only to be compared with the code-derived behavior
above. -/

/-- Spec §4.3 step 2, by its words: "reject if the lowercase title
contains any lowercase title-exclusion keyword as a substring"
(a case-insensitive substring test: both sides lowercased). -/
def titleExcludedSpec (title_filter_keywords : List String) (title : String) : Bool :=
  title_filter_keywords.any (fun kw => strContains (pyLower title) (pyLower kw))

/-- Spec §4.3 step 4, by its words: "reject unless location
case-insensitively contains 'remote' or any configured target location
substring".  No corresponding step exists anywhere in the pipeline
code; this definition states the predicate the spec asserts. -/
def locationMatchSpec (target_locations : List String) (location : String) : Bool :=
  strContains (pyLower location) "remote"
    || target_locations.any (fun l => strContains (pyLower location) (pyLower l))

/-! ## Supporting lemmas -/

/-- With a reachable backend, `is_already_seen` is exactly cache
liveness. -/
theorem is_already_seen_reachable (c : CacheState) (t : Int) (k : String) :
    is_already_seen true c t k = cacheHas c t k := by
  simp only [is_already_seen, isAlreadySeenGen, existsCall, if_true]
  cases cacheHas c t k <;> simp

/-- A key just written with expiry `exp` is live exactly before `exp`. -/
theorem cacheHas_cacheSet_self (c : CacheState) (k : String) (j : JobPosting)
    (exp t : Int) :
    cacheHas (cacheSet c k ⟨j, some exp⟩) t k = decide (t < exp) := by
  simp [cacheHas, cacheSet, cacheLookup, List.find?]

theorem fanoutCount_append (a b : List Ev) (k : String) :
    fanoutCount (a ++ b) k = fanoutCount a k + fanoutCount b k := by
  simp [fanoutCount, List.filter_append]

/-! ## Claim theorems -/

/-- C7: for any combination of per-adapter outcomes, the aggregated
`CycleStats` satisfy `passed + failed = totalCalls` and
`successRate = passed / totalCalls * 100`, with `successRate = 0` when
`totalCalls = 0`. -/
theorem c7_cycle_stats_identities (results : List FetchResult) :
    (cycleStats results).passed + (cycleStats results).failedCalls
        = (cycleStats results).totalCalls
    ∧ (cycleStats results).successRate
        = ((cycleStats results).passed : ℚ) / ((cycleStats results).totalCalls : ℚ) * 100
    ∧ ((cycleStats results).totalCalls = 0 → (cycleStats results).successRate = 0) := by
  refine ⟨?_, ?_, ?_⟩
  · simpa [cycleStats] using Nat.sub_add_cancel (List.countP_le_length _)
  · by_cases h : results.length = 0
    · have hnil : results = [] := List.length_eq_zero.mp h
      subst hnil
      simp [cycleStats]
    · simp [cycleStats, h]
  · intro h
    simp only [cycleStats] at h ⊢
    simp [h]

/-- C7 witness: zero adapter calls give a 0 success rate. -/
theorem c7_cycle_stats_witness : (cycleStats []).successRate = 0 :=
  (c7_cycle_stats_identities []).2.2 rfl

/-- C3: if every `exists` backend call raises, `is_already_seen`
returns `false` for the key (fail-open on read); with the cache model's
unreachable flag set, it returns `false` for every key. -/
theorem c3_fail_open_on_read (ex : String → Except Unit Nat) (k : String)
    (h : ∀ k2, ex k2 = .error ()) :
    isAlreadySeenGen ex k = false
    ∧ ∀ (c : CacheState) (t : Int) (k2 : String), is_already_seen false c t k2 = false := by
  refine ⟨?_, ?_⟩
  · simp [isAlreadySeenGen, h k]
  · intro c t k2
    rfl

/-- C3 witness at a concrete key and an always-raising backend. -/
theorem c3_fail_open_witness :
    isAlreadySeenGen (fun _ => .error ()) "seen_job:LinkedIn:424242" = false :=
  (c3_fail_open_on_read (fun _ => .error ()) "seen_job:LinkedIn:424242" (fun _ => rfl)).1

/-- C10: a posting constructed without an explicit `posted_at` carries
the (naive) construction instant, never `None`, and — the recency check
reading naive timestamps as UTC — passes the recency filter whenever
checked within the window of its construction. -/
theorem c10_default_posted_at_passes_recency (t now : Int)
    (h : now - t ≤ JOB_RECENCY_MINUTES * 60) :
    (jobBaseDefaultPostedAt t).isSome = true
    ∧ is_recent now (jobBaseDefaultPostedAt t) = true := by
  refine ⟨rfl, ?_⟩
  simp only [is_recent, jobBaseDefaultPostedAt, Bool.false_eq_true, if_false,
    decide_eq_true_eq]
  exact h

/-- C10 witness: constructed at epoch 0, checked 300 seconds later. -/
theorem c10_default_posted_at_witness :
    (jobBaseDefaultPostedAt 0).isSome = true
    ∧ is_recent 300 (jobBaseDefaultPostedAt 0) = true :=
  c10_default_posted_at_passes_recency 0 300 (by decide)

/-- C6: for a candidate posting the dedup cache reports as not yet
seen, and a succeeding cache write, the dedup-record write is issued
before the WebSocket broadcast and before the Telegram dispatch — in
every pool (the TTL class, including `none` = permanent, is
arbitrary). -/
theorem c6_write_before_dispatch (now : Int) (ro : Bool) (ttl : Option Int)
    (st : LoopState) (j : JobPosting)
    (hseen : is_already_seen ro st.cache now (jobKey j) = false) :
    (alertJob now ro true ttl st j).trace
      = st.trace ++ [Ev.cacheWrite j ttl, Ev.wsBroadcast j, Ev.telegram j] := by
  simp [alertJob, hseen]

def c6Job : JobPosting :=
  { title := "Backend Engineer", company := "Acme Corp", location := "Boston, MA",
    url := "https://example.com/6", source := "LinkedIn", externalId := "6001",
    postedAt := some ⟨0, true⟩ }

/-- C6 witness: a fresh posting on an empty cache. -/
theorem c6_write_before_dispatch_witness :
    (alertJob 0 true true (some SEEN_JOB_TTL_SECONDS) (initState ⟨[]⟩) c6Job).trace
      = [Ev.cacheWrite c6Job (some SEEN_JOB_TTL_SECONDS), Ev.wsBroadcast c6Job,
         Ev.telegram c6Job] :=
  c6_write_before_dispatch 0 true (some SEEN_JOB_TTL_SECONDS) (initState ⟨[]⟩) c6Job
    (by decide)

/-- C8 (code bug): in `ConnectionManager.broadcast` a failing delivery
calls `disconnect` on the list being iterated, so the subscriber right
after the evicted one is skipped: with live set `[#1 (failing), #2]`,
nobody receives the event even though #2 is healthy and remains live.
`LogConnectionManager.broadcast`, which defers the removals, delivers
to #2 as the claim describes. -/
theorem c8_broadcast_skips_subscriber_after_eviction :
    connectionManagerBroadcast [⟨1, false⟩, ⟨2, true⟩] = ([], [⟨2, true⟩])
    ∧ logManagerBroadcast [⟨1, false⟩, ⟨2, true⟩] = ([⟨2, true⟩], [⟨2, true⟩]) := by
  decide

/-- C2 (code bug): the adapter invocations `run_scraper_loop` makes at
lines 150-160 pass `redis_client` positionally, but
`fetch_linkedin_jobs(keywords=None, location=None)` is then also given
`keywords` by name, and `fetch_jobright_minisites_jobs()` /
`fetch_mathworks_jobs()` take no parameters at all, so Python argument
binding raises `TypeError` before any adapter body runs — no
`FetchResult` is returned.  (The `fetch_fidelity_jobs(redis_client)`
call, by contrast, binds.) -/
theorem c2_scheduler_calls_raise_type_error (kw : String) :
    bindCall linkedinSig [PyVal.redisClient]
        [("keywords", PyVal.str kw), ("location", PyVal.str "United States")]
      = CallOutcome.typeErr "got multiple values for argument"
    ∧ bindCall minisitesSig [PyVal.redisClient] []
      = CallOutcome.typeErr "too many positional arguments"
    ∧ bindCall mathworksSig [PyVal.redisClient] []
      = CallOutcome.typeErr "too many positional arguments"
    ∧ bindCall fidelitySig [PyVal.redisClient] []
      = CallOutcome.bound [("redis_client", PyVal.redisClient)] := by
  refine ⟨?_, by decide, by decide, by decide⟩
  simp [bindCall, linkedinSig]

def c1Job : JobPosting :=
  { title := "Backend Engineer", company := "Acme Corp", location := "United States",
    url := "https://example.com/1", source := "LinkedIn", externalId := "424242",
    postedAt := some ⟨0, true⟩ }

/-- C1 counterexample: the same `(LinkedIn, 424242)` posting is
observed in two cycles 240 s apart; the 2-hour dedup record written at
the first alert is still live at the second observation, yet with the
cache backend unreachable at the second read (`is_already_seen`
fail-open) the fan-out fires a second time — so, as stated, "at most
once within the TTL" is false, and a record's absence is not the only
condition under which an alert fires. -/
theorem c1_duplicate_alert_when_read_fails :
    (let r : FetchResult :=
       { jobs := [c1Job], recentJobs := none, retries := 0, failed := false }
     let st1 := runCycle ["Backend"] 0 true true [r] (initState ⟨[]⟩)
     let st2 := runCycle ["Backend"] 240 false true [r] st1
     cacheHas st1.cache 240 (jobKey c1Job) = true
     ∧ (240 : Int) < 0 + SEEN_JOB_TTL_SECONDS
     ∧ fanoutCount st2.trace (jobKey c1Job) = 2) := by
  decide

/-- C1 (amended): provided the dedup-cache reads succeed (backend
reachable at both observations), processing the same identity twice
within the TTL assigned at the first alert's write fires the fan-out
exactly once more than the initial trace; and, reads succeeding, a
live dedup record forbids any new alert (absence is the only condition
under which one may fire). -/
theorem c1_at_most_once_when_reads_succeed (j j2 : JobPosting) (t0 t1 t2 s : Int)
    (st0 st3 : LoopState) (wo : Bool) (ttl : Option Int)
    (hfresh : cacheHas st0.cache t0 (jobKey j) = false)
    (hwin : t1 < t0 + s)
    (hseen : cacheHas st3.cache t2 (jobKey j2) = true) :
    fanoutCount (alertJob t1 true true (some s)
        (alertJob t0 true true (some s) st0 j) j).trace (jobKey j)
      = fanoutCount st0.trace (jobKey j) + 1
    ∧ alertJob t2 true wo ttl st3 j2 = st3 := by
  constructor
  · have h1 : is_already_seen true st0.cache t0 (jobKey j) = false := by
      rw [is_already_seen_reachable]
      exact hfresh
    have hst1 : alertJob t0 true true (some s) st0 j
        = { cache := cacheSet st0.cache (jobKey j) ⟨j, some (t0 + s)⟩
            newFinds := st0.newFinds + 1
            trace := st0.trace
              ++ [Ev.cacheWrite j (some s), Ev.wsBroadcast j, Ev.telegram j] } := by
      simp [alertJob, h1, mark_as_seen]
    rw [hst1]
    have h2 : is_already_seen true (cacheSet st0.cache (jobKey j) ⟨j, some (t0 + s)⟩)
        t1 (jobKey j) = true := by
      rw [is_already_seen_reachable, cacheHas_cacheSet_self]
      exact decide_eq_true hwin
    simp [alertJob, h2, fanoutCount_append, fanoutCount]
  · have h3 : is_already_seen true st3.cache t2 (jobKey j2) = true := by
      rw [is_already_seen_reachable]
      exact hseen
    simp [alertJob, h3]

def c1WitJob : JobPosting :=
  { title := "Backend Engineer", company := "Acme Corp", location := "United States",
    url := "https://example.com/1w", source := "LinkedIn", externalId := "515151",
    postedAt := some ⟨0, true⟩ }

def c1WitSeen : LoopState :=
  { cache := cacheSet ⟨[]⟩ (jobKey c1WitJob) ⟨c1WitJob, some 100⟩
    newFinds := 0, trace := [] }

/-- C1 witness: empty cache at the first observation, second
observation 240 s later (within the 2 h TTL); and a state already
holding the live record, on which no new alert fires. -/
theorem c1_at_most_once_witness :
    fanoutCount (alertJob 240 true true (some SEEN_JOB_TTL_SECONDS)
        (alertJob 0 true true (some SEEN_JOB_TTL_SECONDS) (initState ⟨[]⟩) c1WitJob)
        c1WitJob).trace (jobKey c1WitJob)
      = fanoutCount (initState ⟨[]⟩).trace (jobKey c1WitJob) + 1
    ∧ alertJob 0 true false none c1WitSeen c1WitJob = c1WitSeen :=
  c1_at_most_once_when_reads_succeed c1WitJob c1WitJob 0 240 0 SEEN_JOB_TTL_SECONDS
    (initState ⟨[]⟩) c1WitSeen false none (by decide) (by decide) (by decide)

def c5Job : JobPosting :=
  { title := "Backend Engineer", company := "Acme Corp", location := "Gotham Undersea",
    url := "https://example.com/5", source := "LinkedIn", externalId := "777",
    postedAt := some ⟨0, true⟩ }

/-- C5 counterexample: a recent, keyword-matching general-pool posting
whose location contains neither "remote" nor any default target
location is nevertheless dedup-checked, cached and alerted — the
pipeline has no location-match step. -/
theorem c5_no_location_filter_counterexample :
    locationMatchSpec DEFAULT_TARGET_LOCATIONS c5Job.location = false
    ∧ (let st := runCycle ["Backend"] 0 true true
          [{ jobs := [c5Job], recentJobs := none, retries := 0, failed := false }]
          (initState ⟨[]⟩)
       fanoutCount st.trace (jobKey c5Job) = 1
       ∧ cacheHas st.cache 0 (jobKey c5Job) = true) := by
  decide

/-- Embeds `alertJob`'s find count and fan-out count depend on the posting
only through its dedup key. -/
theorem alertJob_counts (now : Int) (ro wo : Bool) (ttl : Option Int) (st : LoopState)
    (j1 j2 : JobPosting) (hk : jobKey j1 = jobKey j2) :
    (alertJob now ro wo ttl st j1).newFinds = (alertJob now ro wo ttl st j2).newFinds
    ∧ fanoutCount (alertJob now ro wo ttl st j1).trace (jobKey j2)
      = fanoutCount (alertJob now ro wo ttl st j2).trace (jobKey j2) := by
  simp only [alertJob, hk]
  by_cases hs : is_already_seen ro st.cache now (jobKey j2) = true
  · simp [hs]
  · rw [Bool.not_eq_true] at hs
    cases wo <;> simp [hs, fanoutCount_append, fanoutCount, hk]

/-- C5 (amended): the general-pool loop consults no location predicate
at all — replacing a posting's location by anything, matching or not,
changes neither whether it counts as a new find nor whether its
fan-out fires. -/
theorem c5_alert_decision_ignores_location (tkws : List String) (now : Int)
    (ro wo : Bool) (st : LoopState) (j : JobPosting) (loc : String) :
    (processGeneral tkws now ro wo st { j with location := loc }).newFinds
      = (processGeneral tkws now ro wo st j).newFinds
    ∧ fanoutCount (processGeneral tkws now ro wo st { j with location := loc }).trace
        (jobKey j)
      = fanoutCount (processGeneral tkws now ro wo st j).trace (jobKey j) := by
  obtain ⟨ti, co, lo, ur, so, ex, pa, sa, wm⟩ := j
  have hk : jobKey ⟨ti, co, loc, ur, so, ex, pa, sa, wm⟩
      = jobKey ⟨ti, co, lo, ur, so, ex, pa, sa, wm⟩ := rfl
  simp only [processGeneral]
  cases hsrc : (so == "Jobright")
  · cases hrec : is_recent now pa
    · simp [hsrc, hrec]
    · cases hmk : matchesTargetKeywords tkws ti
      · simp [hsrc, hrec, hmk]
      · simpa [hsrc, hrec, hmk] using
          alertJob_counts now ro wo (some SEEN_JOB_TTL_SECONDS) st _ _ hk
  · simpa [hsrc] using
      alertJob_counts now ro wo (some SEEN_JOB_TTL_SECONDS) st _ _ hk

def c9Job : JobPosting :=
  { title := "Quantum Plumber", company := "Acme Corp", location := "United States",
    url := "https://example.com/9", source := "Jobright", externalId := "9009",
    postedAt := none }

/-- C9 counterexample: two postings in the same `FetchResult`'s `jobs`
list (no `recent_jobs` fields involved), identical except for the
`source` string.  The one named `"Jobright"` bypasses the recency and
keyword filters and is alerted; the other is rejected by the recency
check — the filter-step set is chosen by comparing the posting's source
identity string. -/
theorem c9_source_string_changes_filtering :
    (let r : FetchResult :=
       { jobs := [c9Job, { c9Job with source := "OtherBoard" }],
         recentJobs := none, retries := 0, failed := false }
     let st := runCycle ["Backend"] 0 true true [r] (initState ⟨[]⟩)
     fanoutCount st.trace (jobKey c9Job) = 1
     ∧ fanoutCount st.trace (jobKey { c9Job with source := "OtherBoard" }) = 0) := by
  decide

/-- C9 (amended): `run_scraper_loop` line 202 decides the
recency/keyword exemption by the comparison `job.source != "Jobright"`:
a stale posting is dropped whenever its source string differs from
`"Jobright"`, while the identical posting relabelled `"Jobright"` is
exempted and alerted. -/
theorem c9_exemption_is_source_string_comparison (tkws : List String) (now : Int)
    (wo : Bool) (st : LoopState) (j : JobPosting)
    (h1 : j.source ≠ "Jobright")
    (h2 : is_recent now j.postedAt = false)
    (h3 : cacheHas st.cache now (jobKey { j with source := "Jobright" }) = false) :
    processGeneral tkws now true wo st j = st
    ∧ (processGeneral tkws now true wo st { j with source := "Jobright" }).newFinds
      = st.newFinds + 1 := by
  obtain ⟨ti, co, lo, ur, so, ex, pa, sa, wm⟩ := j
  constructor
  · have hb : (so == "Jobright") = false := by
      simpa using h1
    simp [processGeneral, hb, h2]
  · have hseen : is_already_seen true st.cache now
        (jobKey ⟨ti, co, lo, ur, "Jobright", ex, pa, sa, wm⟩) = false := by
      rw [is_already_seen_reachable]
      exact h3
    simp [processGeneral, alertJob, hseen]

def c9WitJob : JobPosting :=
  { title := "Quantum Plumber", company := "Acme Corp", location := "United States",
    url := "https://example.com/9w", source := "LinkedIn", externalId := "9119",
    postedAt := none }

/-- C9 witness: a timestamp-less LinkedIn posting is dropped; the same
posting relabelled `"Jobright"` is counted as a new find. -/
theorem c9_exemption_witness :
    processGeneral ["Backend"] 0 true true (initState ⟨[]⟩) c9WitJob = initState ⟨[]⟩
    ∧ (processGeneral ["Backend"] 0 true true (initState ⟨[]⟩)
        { c9WitJob with source := "Jobright" }).newFinds
      = (initState ⟨[]⟩).newFinds + 1 :=
  c9_exemption_is_source_string_comparison ["Backend"] 0 true (initState ⟨[]⟩) c9WitJob
    (by decide) (by decide) (by decide)

def c4Raw : FidelityRaw :=
  { title := "Veterinarian Technician", postedOn := "Posted Today",
    externalPath := "/job/vt1", bulletFields := ["VT-1"], locationsText := "Boston, MA" }

/-- C4 counterexample: with the repository's own default
title-exclusion list (which contains `"Veterinarian"`, capitalized), a
posting titled "Veterinarian Technician" contains that keyword as a
case-insensitive substring — so by the claim it must never reach the
dedup cache or notification channel — yet the filter compares the
keyword verbatim against the lowercased title, misses, and the posting
is cached and telegram-alerted. -/
theorem c4_uppercase_keyword_not_matched_case_insensitively :
    titleExcludedSpec DEFAULT_TITLE_FILTER_KEYWORDS "Veterinarian Technician" = true
    ∧ titleFilterHit DEFAULT_TITLE_FILTER_KEYWORDS "Veterinarian Technician" = false
    ∧ (let st := runCycle [] 0 true true
          [fidelityFetchResult DEFAULT_TITLE_FILTER_KEYWORDS DEFAULT_BLOCKED_COMPANIES
            0 [c4Raw]]
          (initState ⟨[]⟩)
       fanoutCount st.trace "seen_job:Fidelity:VT-1" = 1
       ∧ cacheHas st.cache 0 "seen_job:Fidelity:VT-1" = true) := by
  decide

/-- Everything the Fidelity parse loop lets through has no verbatim
title-filter-keyword hit and carries source `"Fidelity"`. -/
theorem fidelityParse_no_filtered_title (kws blocked : List String) (now : Int)
    (raws : List FidelityRaw) :
    ∀ j ∈ raws.filterMap (fidelityParseOne kws blocked now),
      titleFilterHit kws j.title = false ∧ j.source = "Fidelity" := by
  intro j hj
  rcases List.mem_filterMap.mp hj with ⟨raw, _, hp⟩
  unfold fidelityParseOne at hp
  split_ifs at hp with hA hB hC hD hE
  rw [Option.some_inj] at hp
  subst hp
  exact ⟨Bool.not_eq_true _ ▸ hB, rfl⟩

/-- Everything the LinkedIn card loop lets through has no verbatim
title-filter-keyword hit. -/
theorem linkedinParse_no_filtered_title (kws blocked : List String)
    (cards : List LinkedInCard) :
    ∀ j ∈ cards.filterMap (linkedinParseOne kws blocked),
      titleFilterHit kws j.title = false := by
  intro j hj
  rcases List.mem_filterMap.mp hj with ⟨card, _, hp⟩
  unfold linkedinParseOne at hp
  split_ifs at hp with hA hB hC hD hE
  rw [Option.some_inj] at hp
  subst hp
  exact Bool.not_eq_true _ ▸ hB

/-- The alert path only appends events about the posting it is given. -/
theorem alertJob_trace_all (R : JobPosting → Bool) (now : Int) (ro wo : Bool)
    (ttl : Option Int) (st : LoopState) (j : JobPosting)
    (hst : st.trace.all (fun e => R e.job) = true) (hj : R j = true) :
    (alertJob now ro wo ttl st j).trace.all (fun e => R e.job) = true := by
  unfold alertJob
  by_cases hs : is_already_seen ro st.cache now (jobKey j) = true
  · simpa [hs] using hst
  · rw [Bool.not_eq_true] at hs
    have hst2 := List.all_eq_true.mp hst
    cases wo <;> simp [hs, List.all_append, hj, Ev.job, List.all_eq_true] <;>
      exact fun x hx => hst2 x hx

theorem foldl_alertJob_trace_all (R : JobPosting → Bool) (now : Int) (ro wo : Bool)
    (ttl : Option Int) (l : List JobPosting) (hl : ∀ j ∈ l, R j = true) :
    ∀ st : LoopState, st.trace.all (fun e => R e.job) = true →
      ((l.foldl (alertJob now ro wo ttl) st).trace.all (fun e => R e.job)) = true := by
  induction l with
  | nil =>
      intro st h
      simpa using h
  | cons a as ih =>
      intro st h
      simp only [List.foldl_cons]
      exact ih (fun j hj => hl j (List.mem_cons_of_mem a hj)) _
        (alertJob_trace_all R now ro wo ttl st a h (hl a (List.mem_cons_self a as)))

/-- C4 (amended): title exclusion is case-sensitive in the keyword —
only the title is lowercased.  Every event of a cycle run over a
Fidelity fetch (dedup write, broadcast, Telegram dispatch) concerns a
posting whose lowercased title contains no configured keyword verbatim,
and every posting the LinkedIn card loop emits likewise: a posting
whose lowercased title contains a keyword as written is rejected and
never reaches the dedup cache or the notification channel. -/
theorem c4_verbatim_keyword_rejection (fkws blocked tkws : List String)
    (tF now : Int) (ro wo : Bool) (c : CacheState) (raws : List FidelityRaw)
    (cards : List LinkedInCard) :
    ((runCycle tkws now ro wo
        [fidelityFetchResult fkws blocked tF raws] (initState c)).trace.all
        (fun e => !titleFilterHit fkws e.job.title)) = true
    ∧ ((cards.filterMap (linkedinParseOne fkws blocked)).all
        (fun j => !titleFilterHit fkws j.title)) = true := by
  constructor
  · have hall : ∀ j ∈ raws.filterMap (fidelityParseOne fkws blocked tF),
        (!titleFilterHit fkws j.title) = true := by
      intro j hj
      simp [(fidelityParse_no_filtered_title fkws blocked tF raws j hj).1]
    rcases hps : raws.filterMap (fidelityParseOne fkws blocked tF) with _ | ⟨f, rest⟩
    · simp [runCycle, fidelityFetchResult, hps, routeOne, emptyPools, initState]
    · have hsrc : f.source = "Fidelity" :=
        (fidelityParse_no_filtered_title fkws blocked tF raws f
          (by rw [hps]; exact List.mem_cons_self f rest)).2
      have e1 : (f.source == "JobrightMiniSites") = false := by
        rw [hsrc]; decide
      have e2 : (f.source == "Fidelity") = true := by
        rw [hsrc]; decide
      simp only [runCycle, fidelityFetchResult, hps, List.foldl_cons, List.foldl_nil,
        routeOne, emptyPools, e1, e2, Bool.false_eq_true, if_false, if_true]
      exact foldl_alertJob_trace_all _ now ro wo (some FIDELITY_TTL_SECONDS)
        (f :: rest) (by rw [← hps]; exact hall) (initState c) rfl
  · rw [List.all_eq_true]
    intro j hj
    simp [linkedinParse_no_filtered_title fkws blocked cards j hj]

end Goonedin
